import Mathlib

set_option maxHeartbeats 1000000

/-!
Verification development for the coax TD-learning core
(src/coax/td_learning/_base.py).  The state-level machinery (update,
update_from_grads, grads_and_metrics, the optimizer setters and the
constructors) is embedded over an idealized scalar type that keeps the
IEEE distinctions between finite values, infinities and NaN, since the
NaN check in BaseTDLearning.update depends on them.  The loss-level
computations (importance-weight clipping, regularizer handling, TD-error
derivation) are embedded over exact fields.
-/

namespace Coax

/-- Model of a JAX array scalar: a finite value (idealized as a rational),
an infinity, or a NaN.  These are exactly the distinctions that jnp.isnan
in BaseTDLearning.update (line 107) relies on. -/
inductive FloatVal where
  | finite (q : ℚ)
  | infinite (neg : Bool)
  | nan
deriving DecidableEq

/-- Model of jnp.isnan on one scalar. -/
def FloatVal.isnan : FloatVal → Bool
  | .nan => true
  | _ => false

/-- Model of jnp.isfinite on one scalar. -/
def FloatVal.isfinite : FloatVal → Bool
  | .finite _ => true
  | _ => false

/-- IEEE-style addition on model scalars, used by the additive update rule
of optax.apply_updates. -/
def FloatVal.add : FloatVal → FloatVal → FloatVal
  | .nan, _ => .nan
  | _, .nan => .nan
  | .infinite s, .infinite t => if s = t then .infinite s else .nan
  | .infinite s, .finite _ => .infinite s
  | .finite _, .infinite t => .infinite t
  | .finite a, .finite b => .finite (a + b)

/-- Binary model of a JAX pytree with values at the leaves. -/
inductive PTree (α : Type) where
  | leaf (a : α)
  | node (l r : PTree α)
deriving DecidableEq

/-- Map over the leaves of a pytree. -/
def PTree.map {α β : Type} (f : α → β) : PTree α → PTree β
  | .leaf a => .leaf (f a)
  | .node l r => .node (l.map f) (r.map f)

/-- Model of jax.tree_leaves. -/
def PTree.leaves {α : Type} : PTree α → List α
  | .leaf a => [a]
  | .node l r => l.leaves ++ r.leaves

/-- Model of jax.tree_structure: the tree with its leaf values forgotten. -/
def treeStructure {α : Type} (t : PTree α) : PTree Unit :=
  t.map fun _ => ()

/-- Leafwise combination of two pytrees of the same structure.  On a
structure mismatch the first tree is returned unchanged;
optax.apply_updates assumes matching structures. -/
def PTree.zipWith {α : Type} (f : α → α → α) : PTree α → PTree α → PTree α
  | .leaf a, .leaf b => .leaf (f a b)
  | .node l r, .node l2 r2 => .node (l.zipWith f l2) (r.zipWith f r2)
  | t, _ => t

/-- Model of an optax gradient transformation: init builds the optimizer
state from the parameters; update consumes (grads, opt_state, params) and
returns (updates, new_opt_state), as used in apply_grads_func
(lines 58-61). -/
structure Optimizer where
  init : PTree FloatVal → PTree FloatVal
  update : PTree FloatVal → PTree FloatVal → PTree FloatVal → PTree FloatVal × PTree FloatVal

/-- Modelled from the spec: the function kinds that coax.utils.is_vfunction,
is_qfunction and is_policy distinguish (coax/utils.py is not under src/;
the spec describes these checks as rejecting a wrong function kind at
construction). -/
inductive FKind where
  | vfunc
  | qfunc
  | policy
  | other
deriving DecidableEq

/-- Model of a coax parametrized function approximator as far as _base.py
reads it: its kind tag, trainable params, auxiliary function state and rng
counter. -/
structure Func where
  kind : FKind
  params : PTree FloatVal
  functionState : PTree FloatVal
  rng : ℕ
deriving DecidableEq

/-- Modelled from the spec: coax.utils.is_vfunction as a kind test. -/
def is_vfunction (f : Func) : Bool :=
  decide (f.kind = FKind.vfunc)

/-- Modelled from the spec: coax.utils.is_qfunction as a kind test. -/
def is_qfunction (f : Func) : Bool :=
  decide (f.kind = FKind.qfunc)

/-- Modelled from the spec: coax.utils.is_policy as a kind test. -/
def is_policy (f : Func) : Bool :=
  decide (f.kind = FKind.policy)

/-- Model of a coax.regularizers.Regularizer object as far as _base.py
reads it: an optional wrapped function approximator f and a hyperparams
pytree (both read through getattr with default None). -/
structure RegObj where
  f : Option Func
  hyperparams : PTree FloatVal
deriving DecidableEq

/-- The possible values of the policy_regularizer constructor argument:
None, a Regularizer, or an object of another type, which the isinstance
check on line 49 rejects. -/
inductive RegArg where
  | rnone
  | rsome (r : RegObj)
  | rbad
deriving DecidableEq

/-- Whether the isinstance check on line 49 rejects the argument. -/
def RegArg.isBad : RegArg → Bool
  | .rbad => true
  | _ => false

/-- The regularizer stored on the instance for an accepted argument. -/
def RegArg.toOption : RegArg → Option RegObj
  | .rsome r => some r
  | _ => none

/-- The instance state of BaseTDLearning (lines 42-63): online function _f,
target _f_targ (whose type depends on the subclass), loss_function (opaque
at this level), policy_regularizer, _optimizer and _optimizer_state. -/
structure BaseTD (τ Λ : Type) where
  f : Func
  fTarg : τ
  lossFunction : Λ
  policyRegularizer : Option RegObj
  optimizer : Optimizer
  optimizerState : PTree FloatVal

/-- BaseTDLearning.__init__ (lines 43-63).  liftSelf models the dynamic
assignment of f to _f_targ when f_targ is None; defaultOpt stands for the
external collaborator optax.adam(1e-3) and defaultLoss for
coax.value_losses.huber (neither is under src/). -/
def BaseTDLearning.init {τ Λ : Type} (f : Func) (fTarg : Option τ) (liftSelf : Func → τ)
    (optimizer : Option Optimizer) (defaultOpt : Optimizer)
    (lossFunction : Option Λ) (defaultLoss : Λ) (preg : RegArg) :
    Except String (BaseTD τ Λ) :=
  if preg.isBad then
    .error "policy_regularizer must be a Regularizer"
  else
    let opt := optimizer.getD defaultOpt
    .ok { f := f
          fTarg := fTarg.getD (liftSelf f)
          lossFunction := lossFunction.getD defaultLoss
          policyRegularizer := preg.toOption
          optimizer := opt
          optimizerState := opt.init f.params }

/-- Whether the v_targ argument passes the check on line 229. -/
def vTargOk : Option Func → Bool
  | none => true
  | some g => is_vfunction g

/-- BaseTDLearningV.__init__ (lines 225-237): the two type checks, then the
base constructor. -/
def BaseTDLearningV.init {Λ : Type} (v : Func) (vTarg : Option Func)
    (optimizer : Option Optimizer) (defaultOpt : Optimizer)
    (lossFunction : Option Λ) (defaultLoss : Λ) (preg : RegArg) :
    Except String (BaseTD Func Λ) :=
  if !(is_vfunction v) then
    .error "v must be a v-function"
  else if !(vTargOk vTarg) then
    .error "v_targ must be a v-function or None"
  else
    BaseTDLearning.init v vTarg id optimizer defaultOpt lossFunction defaultLoss preg

/-- The possible values of the q_targ constructor argument: None, a single
object, a list, or a tuple.  Line 374 accepts any list or tuple without
inspecting its elements. -/
inductive QTargArg where
  | qnone
  | qsingle (f : Func)
  | qlist (fs : List Func)
  | qtuple (fs : List Func)
deriving DecidableEq

/-- Whether the q_targ argument passes the check on line 374. -/
def qTargOk : QTargArg → Bool
  | .qnone => true
  | .qsingle f => is_qfunction f
  | .qlist _ => true
  | .qtuple _ => true

/-- Resolution of the q_targ argument into the value handed to the base
constructor (None resolves there to the online function itself). -/
def QTargArg.resolve : QTargArg → Option (Func ⊕ List Func)
  | .qnone => none
  | .qsingle f => some (Sum.inl f)
  | .qlist fs => some (Sum.inr fs)
  | .qtuple fs => some (Sum.inr fs)

/-- BaseTDLearningQ.__init__ (lines 370-382): the two type checks, then the
base constructor. -/
def BaseTDLearningQ.init {Λ : Type} (q : Func) (qTarg : QTargArg)
    (optimizer : Option Optimizer) (defaultOpt : Optimizer)
    (lossFunction : Option Λ) (defaultLoss : Λ) (preg : RegArg) :
    Except String (BaseTD (Func ⊕ List Func) Λ) :=
  if !(is_qfunction q) then
    .error "q must be a q-function"
  else if !(qTargOk qTarg) then
    .error "q_targ must be a q-function or None"
  else
    BaseTDLearning.init q qTarg.resolve Sum.inl optimizer defaultOpt lossFunction defaultLoss preg

/-- Whether the pi_targ argument passes the check on line 522. -/
def piTargOk : Option Func → Bool
  | none => true
  | some g => is_policy g

/-- BaseTDLearningQWithTargetPolicy.__init__ (lines 517-531): the pi_targ
type check runs first, then the Q constructor. -/
def BaseTDLearningQWithTargetPolicy.init {Λ : Type} (q : Func) (piTarg : Option Func)
    (qTarg : QTargArg) (optimizer : Option Optimizer) (defaultOpt : Optimizer)
    (lossFunction : Option Λ) (defaultLoss : Λ) (preg : RegArg) :
    Except String (BaseTD (Func ⊕ List Func) Λ × Option Func) :=
  if !(piTargOk piTarg) then
    .error "pi_targ must be a Policy"
  else
    (BaseTDLearningQ.init q qTarg optimizer defaultOpt lossFunction defaultLoss preg).map
      fun st => (st, piTarg)

/-- The optimizer property setter (lines 206-211): compare the structure of
the state the new optimizer would build on the current online params with
the structure of the current optimizer state. -/
def setOptimizer {τ Λ : Type} (st : BaseTD τ Λ) (newOptimizer : Optimizer) :
    Except String (BaseTD τ Λ) :=
  if treeStructure (newOptimizer.init st.f.params) ≠ treeStructure st.optimizerState then
    .error "cannot set optimizer attr: mismatch in optimizer_state structure"
  else
    .ok { st with optimizer := newOptimizer }

/-- The optimizer_state property setter (lines 217-221). -/
def setOptimizerState {τ Λ : Type} (st : BaseTD τ Λ) (newState : PTree FloatVal) :
    Except String (BaseTD τ Λ) :=
  if treeStructure newState ≠ treeStructure st.optimizerState then
    .error "cannot set optimizer_state attr: mismatch in tree structure"
  else
    .ok { st with optimizerState := newState }

/-- The result quadruple of the compiled _grads_and_metrics_func. -/
structure GMResult where
  grads : PTree FloatVal
  funcState : PTree FloatVal
  metrics : List (String × FloatVal)
  tdError : List FloatVal

/-- The compiled gradient computation installed by the concrete subclass, as
a pure function of the online params, the function state, the rng and the
batch (the target bundle is itself assembled from these and from constant
target-copy data, see target_params below). -/
def GMFunc (β : Type) : Type :=
  PTree FloatVal → PTree FloatVal → ℕ → β → GMResult

/-- grads_and_metrics (lines 137-170): invoke the installed gradient
function on the current instance data; reading the rng of _f advances it. -/
def grads_and_metrics {τ Λ β : Type} (gm : GMFunc β) (st : BaseTD τ Λ) (b : β) :
    GMResult × BaseTD τ Λ :=
  (gm st.f.params st.f.functionState st.f.rng b,
   { st with f := { st.f with rng := st.f.rng + 1 } })

/-- optax.apply_updates: the fixed additive rule combining params and
updates leafwise. -/
def applyUpdates (params updates : PTree FloatVal) : PTree FloatVal :=
  params.zipWith FloatVal.add updates

/-- update_from_grads (lines 112-135): commit the new function state, run
apply_grads_func, then assign the optimizer state (through its checking
setter) and the new params. -/
def update_from_grads {τ Λ : Type} (st : BaseTD τ Λ) (grads funcState : PTree FloatVal) :
    Except String (BaseTD τ Λ) :=
  let st1 := { st with f := { st.f with functionState := funcState } }
  let res := st.optimizer.update grads st.optimizerState st.f.params
  (setOptimizerState st1 res.2).map
    fun st2 => { st2 with f := { st2.f with params := applyUpdates st.f.params res.1 } }

/-- The check on line 107: does any gradient leaf hold a NaN. -/
def anyNaN (grads : PTree FloatVal) : Bool :=
  grads.leaves.any FloatVal.isnan

/-- Whether every gradient leaf is finite (neither NaN nor infinite). -/
def allFinite (grads : PTree FloatVal) : Bool :=
  grads.leaves.all FloatVal.isfinite

/-- update (lines 79-110): compute grads and metrics, abort when a gradient
leaf is NaN, otherwise apply the grads; the optional TD-error output models
the return_td_error flag. -/
def update {τ Λ β : Type} (gm : GMFunc β) (st : BaseTD τ Λ) (b : β) (returnTd : Bool) :
    Except String (BaseTD τ Λ × List (String × FloatVal) × Option (List FloatVal)) :=
  let r := grads_and_metrics gm st b
  if anyNaN r.1.grads then
    .error "found nan in grads"
  else
    (update_from_grads r.2 r.1.grads r.1.funcState).map
      fun st2 => (st2, r.1.metrics, if returnTd then some r.1.tdError else none)

/-- BaseTDLearningV.target_params (lines 339-344), as a function of the
attributes it reads; values are Option to model entries that are Python
None. -/
def targetParamsV (v vTarg : Func) (preg : Option RegObj) :
    List (String × Option (PTree FloatVal)) :=
  [("v", some v.params),
   ("v_targ", some vTarg.params),
   ("reg", (preg.bind RegObj.f).map Func.params),
   ("reg_hparams", preg.map RegObj.hyperparams)]

/-- BaseTDLearningQ.target_params (lines 486-491). -/
def targetParamsQ (q qTarg : Func) (preg : Option RegObj) :
    List (String × Option (PTree FloatVal)) :=
  [("q", some q.params),
   ("q_targ", some qTarg.params),
   ("reg", (preg.bind RegObj.f).map Func.params),
   ("reg_hparams", preg.map RegObj.hyperparams)]

/-- Mean of a vector, jnp.mean. -/
def vmean {α : Type} [Field α] {n : ℕ} (x : Fin n → α) : α :=
  (∑ i, x i) / n

/-- jnp.clip(x, lo, hi): x clamped below at lo, above at hi. -/
def clipS {α : Type} [LinearOrder α] (x lo hi : α) : α :=
  min hi (max lo x)

/-- Clipping of the importance weights of the batch to the interval from
one tenth to ten (lines 256 and 402). -/
def clipWeights {α : Type} [LinearOrderedField α] {n : ℕ} (W : Fin n → α) : Fin n → α :=
  fun i => clipS (W i) (1 / 10) 10

/-- A configured differentiable scalar loss: its value and the gradient in
its second argument (y_pred), the latter standing for the result of
jax.grad(loss_function, argnums=1) on line 300/447.  The optional third
argument is the per-sample weight vector. -/
structure DiffLoss (α : Type) (n : ℕ) where
  val : (Fin n → α) → (Fin n → α) → Option (Fin n → α) → α
  dPred : (Fin n → α) → (Fin n → α) → Option (Fin n → α) → Fin n → α

/-- Modelled from the spec: coax.value_losses.mse (coax/value_losses.py is
not under src/), the mean-squared-error loss with optional per-sample
weights; the one-half factor is the convention fixed by the spec through
its closed-form check that the TD-error reduces to target minus
prediction. -/
def mse {α : Type} [Field α] {n : ℕ} (yTrue yPred : Fin n → α) (w : Option (Fin n → α)) : α :=
  vmean fun i => (w.getD fun _ => 1) i * ((1 : α) / 2 * (yPred i - yTrue i) ^ 2)

/-- The gradient of mse in y_pred, as jax autodiff produces it. -/
def mseGrad {α : Type} [Field α] {n : ℕ} (yTrue yPred : Fin n → α)
    (w : Option (Fin n → α)) : Fin n → α :=
  fun i => (w.getD fun _ => 1) i * (yPred i - yTrue i) / n

/-- The mse loss packaged with its y_pred gradient. -/
def mseLoss (α : Type) [Field α] (n : ℕ) : DiffLoss α n :=
  ⟨mse, mseGrad⟩

/-- The data computed by the scalar (non-distributional) branch of
loss_func together with its shared tail (lines 254-308 and 399-455): the
target that entered the loss, the loss, the per-sample TD-error and the
two aggregate TD metrics. -/
structure ScalarLossOut (α : Type) (n : ℕ) where
  target : Fin n → α
  loss : α
  tdError : Fin n → α
  metricTd : α
  metricTdTarg : α

/-- Scalar branch of loss_func: G0 is the value of self.target_func on the
target bundle, V the online prediction, VTarg the estimate of the target
function itself, Wraw the raw batch importance weights, and regEval the
value of policy_regularizer.batch_eval on the target bundle (none when no
regularizer is configured). -/
def scalarLossFunc {α : Type} [LinearOrderedField α] {n : ℕ} (L : DiffLoss α n)
    (G0 V VTarg Wraw : Fin n → α) (regEval : Option (Fin n → α)) : ScalarLossOut α n :=
  let W := clipWeights Wraw
  let regularizer : Fin n → α :=
    match regEval with
    | none => fun _ => 0
    | some r => fun i => -(r i)
  let G := fun i => G0 i + regularizer i
  let loss := L.val G V (some W)
  let tdError := fun i => -(n : α) * L.dPred G V none i
  { target := G
    loss := loss
    tdError := tdError
    metricTd := vmean fun i => W i * tdError i
    metricTdTarg := vmean fun i => -(L.dPred V VTarg (some W) i) }

/-- The scalar branch loss as a function of the online parameters, for an
abstract network net standing for self.v.function(params, ...): this is
the function of params that jax.grad differentiates in
grads_and_metrics_func. -/
def scalarLossOfParams {α : Type} [LinearOrderedField α] {n : ℕ} {P : Type} (L : DiffLoss α n)
    (net : P → Fin n → α) (G0 VTarg Wraw : Fin n → α) (regEval : Option (Fin n → α)) :
    P → α :=
  fun p => (scalarLossFunc L G0 (net p) VTarg Wraw regEval).loss

/-- Distributional branch of loss_func (lines 267-276 and 413-423): the
regularizer handling of the target distribution and the cross-entropy
loss.  crossEntropy and affineTransform are the opaque proba_dist
collaborators; value_transform is folded into affineTransform, and the
scale argument is the broadcast constant 1 passed by the source. -/
def distLossFunc {α : Type} [Field α] {n : ℕ} {D : Type}
    (crossEntropy : D → D → Fin n → α)
    (affineTransform : D → (Fin n → α) → (Fin n → α) → D)
    (distTarget distPred : D) (regEval : Option (Fin n → α)) : α × D :=
  let distTargetShifted :=
    match regEval with
    | none => distTarget
    | some r => affineTransform distTarget (fun _ => 1) (fun i => -(r i))
  (vmean (crossEntropy distTargetShifted distPred), distTargetShifted)

/-- A shape-tagged rank-one-or-not array for the chex assertions of
lines 298-302 and 445-449. -/
structure NDArr where
  shape : List ℕ
  data : List ℚ
deriving DecidableEq

/-- The rank of an array. -/
def NDArr.rank (a : NDArr) : ℕ :=
  a.shape.length

/-- chex.assert_equal_shape on a list of arrays. -/
def equalShapes : List NDArr → Bool
  | [] => true
  | a :: rest => rest.all fun b => decide (b.shape = a.shape)

/-- chex.assert_rank(arrays, 1). -/
def allRankOne (arrays : List NDArr) : Bool :=
  arrays.all fun a => decide (a.rank = 1)

/-- The assertion prelude and TD-error derivation shared by both loss_func
branches (lines 298-302 and 445-449): assert that target, prediction,
target estimate and weights share shape and have rank one, derive the
TD-error, assert its shape against the weights, and abort on any
mismatch.  dPred stands for the configured dLoss_dV. -/
def lossFuncAsserts (dPred : List ℚ → List ℚ → List ℚ) (G V VTarg W : NDArr) :
    Except String NDArr :=
  if !(equalShapes [G, V, VTarg, W]) then
    .error "chex equal-shape assertion failed"
  else if !(allRankOne [G, V, VTarg, W]) then
    .error "chex rank assertion failed"
  else
    let batchSize : ℚ := (V.shape.headD 0 : ℕ)
    let td : NDArr := { shape := V.shape, data := (dPred G.data V.data).map fun x => -batchSize * x }
    if td.shape ≠ W.shape then
      .error "chex equal-shape assertion failed on td_error"
    else
      .ok td

/-- Whether an Except value is a success. -/
def isOkE {ε α : Type} : Except ε α → Bool
  | .ok _ => true
  | .error _ => false

/-- A concrete optimizer for evaluation: init mirrors the parameter
structure with zeros, update passes the gradients through as updates. -/
def cOpt : Optimizer :=
  ⟨fun p => p.map fun _ => .finite 0, fun g s _ => (g, s)⟩

/-- A concrete q-function object. -/
def cQFunc : Func :=
  ⟨.qfunc, .leaf (.finite 1), .leaf (.finite 0), 0⟩

/-- A concrete v-function object. -/
def cVFunc : Func :=
  ⟨.vfunc, .leaf (.finite 2), .leaf (.finite 0), 0⟩

/-- A concrete TD-learning instance state built over cQFunc and cOpt. -/
def cState : BaseTD Unit Unit :=
  ⟨cQFunc, (), (), none, cOpt, cOpt.init cQFunc.params⟩

/-- A gradient computation whose single gradient leaf is NaN. -/
def cGmNaN : GMFunc Unit :=
  fun _ _ _ _ => ⟨.leaf .nan, .leaf (.finite 0), [], []⟩

/-- A gradient computation whose single gradient leaf is infinite (and so
non-finite but not NaN). -/
def cGmInf : GMFunc Unit :=
  fun _ _ _ _ => ⟨.leaf (.infinite false), .leaf (.finite 0), [], []⟩

/-- A gradient computation whose single gradient leaf is finite. -/
def cGmFin : GMFunc Unit :=
  fun _ _ _ _ => ⟨.leaf (.finite 3), .leaf (.finite 0), [], []⟩

/-!  Helper lemmas shared by the claim theorems. -/

lemma anyNaN_eq_false_of_allFinite (g : PTree FloatVal) (h : allFinite g = true) :
    anyNaN g = false := by
  simp only [allFinite, List.all_eq_true] at h
  simp only [anyNaN]
  rw [List.any_eq_false]
  intro x hx
  have hfx := h x hx
  cases x <;> simp_all [FloatVal.isnan, FloatVal.isfinite]

lemma clipS_high {α : Type} [LinearOrder α] (x lo hi : α) (hx : hi ≤ x) :
    clipS x lo hi = hi := by
  unfold clipS
  exact min_eq_left (le_trans hx (le_max_right lo x))

lemma clipS_low {α : Type} [LinearOrder α] (x lo hi : α) (hx : x ≤ lo) (hlh : lo ≤ hi) :
    clipS x lo hi = lo := by
  unfold clipS
  rw [max_eq_left hx]
  exact min_eq_right hlh

lemma isOkE_baseInit {τ Λ : Type} (f : Func) (fT : Option τ) (ls : Func → τ)
    (o : Option Optimizer) (dO : Optimizer) (lf : Option Λ) (dL : Λ) (preg : RegArg) :
    isOkE (BaseTDLearning.init f fT ls o dO lf dL preg) = !preg.isBad := by
  cases preg <;> rfl

lemma isOkE_qInit {Λ : Type} (q : Func) (qT : QTargArg) (o : Option Optimizer)
    (dO : Optimizer) (lf : Option Λ) (dL : Λ) (preg : RegArg) :
    isOkE (BaseTDLearningQ.init q qT o dO lf dL preg)
      = (is_qfunction q && qTargOk qT && !preg.isBad) := by
  cases hq : is_qfunction q
  · simp [BaseTDLearningQ.init, hq, isOkE]
  · cases hqt : qTargOk qT
    · simp [BaseTDLearningQ.init, hq, hqt, isOkE]
    · simp only [BaseTDLearningQ.init, hq, hqt, Bool.not_true, Bool.false_eq_true,
        if_false, Bool.true_and]
      rw [isOkE_baseInit]

lemma mse_hasDerivAt {n : ℕ} (yT yP : Fin n → ℝ) (i : Fin n) :
    HasDerivAt (fun x => mse yT (Function.update yP i x) none)
      (mseGrad yT yP none i) (yP i) := by
  have hfun : (fun x => mse yT (Function.update yP i x) none)
      = fun x => (∑ j, (1 : ℝ) / 2 * (Function.update yP i x j - yT j) ^ 2) / (n : ℝ) := by
    funext x
    simp only [mse, vmean, Option.getD_none, one_mul]
  rw [hfun]
  have hsum : HasDerivAt (fun x => ∑ j, (1 : ℝ) / 2 * (Function.update yP i x j - yT j) ^ 2)
      (∑ j, if j = i then yP i - yT i else 0) (yP i) := by
    apply HasDerivAt.sum
    intro j _
    by_cases hj : j = i
    · subst hj
      simp only [Function.update_same, if_pos rfl]
      have h4 : HasDerivAt (fun y : ℝ => 1 / 2 * (y - yT j) ^ 2) (yP j - yT j) (yP j) := by
        have h2 : HasDerivAt (fun x : ℝ => x - yT j) 1 (yP j) := (hasDerivAt_id _).sub_const _
        have h3 := (h2.pow 2).const_mul ((1 : ℝ) / 2)
        convert h3 using 1
        push_cast
        ring
      simpa using h4
    · simp only [Function.update_noteq hj, if_neg hj]
      exact hasDerivAt_const _ _
  have hdiv := hsum.div_const (n : ℝ)
  have hsimp : (∑ j, if j = i then yP i - yT i else 0) = yP i - yT i := by
    simp
  rw [hsimp] at hdiv
  have hg : mseGrad yT yP none i = (yP i - yT i) / n := by
    simp [mseGrad]
  rw [hg]
  exact hdiv

lemma isOkE_map {ε α β : Type} (f : α → β) (e : Except ε α) :
    isOkE (e.map f) = isOkE e := by
  cases e <;> rfl

/-!  Claim theorems. -/

/-- Claim C1, amended: update raises exactly on a NaN gradient leaf.  If
any leaf of the computed gradients is NaN then update aborts with an error
and produces no new state; if no leaf is NaN (even if some are infinite),
update proceeds to apply the gradients through update_from_grads. -/
theorem update_nan_check {τ Λ β : Type} (gm : GMFunc β) (st : BaseTD τ Λ) (b : β) (rt : Bool) :
    (anyNaN (grads_and_metrics gm st b).1.grads = true →
      update gm st b rt = .error "found nan in grads")
    ∧ (anyNaN (grads_and_metrics gm st b).1.grads = false →
      update gm st b rt =
        (update_from_grads (grads_and_metrics gm st b).2 (grads_and_metrics gm st b).1.grads
            (grads_and_metrics gm st b).1.funcState).map
          fun st2 => (st2, (grads_and_metrics gm st b).1.metrics,
            if rt then some (grads_and_metrics gm st b).1.tdError else none)) := by
  constructor
  · intro h
    simp [update, h]
  · intro h
    simp [update, h]

/-- Witness for C1: on a concrete batch whose gradient leaf is NaN, update
aborts with the error. -/
theorem update_nan_check_witness :
    update cGmNaN cState () false = Except.error "found nan in grads" :=
  (update_nan_check cGmNaN cState () false).1 rfl

/-- Counterexample to C1 as stated: a gradient leaf that is infinite (so
non-finite) but not NaN does not trigger the check, and update succeeds
instead of raising. -/
theorem update_inf_grads_counterexample :
    ((grads_and_metrics cGmInf cState ()).1.grads.leaves.any
        (fun g => !(FloatVal.isfinite g)) = true)
    ∧ isOkE (update cGmInf cState () false) = true :=
  ⟨rfl, rfl⟩

/-- Claim C2 (confirmed): for a batch whose computed gradients are all
finite, the fused update equals computing grads_and_metrics and then
passing its gradients and function state to update_from_grads. -/
theorem update_split_equiv {τ Λ β : Type} (gm : GMFunc β) (st : BaseTD τ Λ) (b : β) (rt : Bool)
    (h : allFinite (grads_and_metrics gm st b).1.grads = true) :
    update gm st b rt =
      (update_from_grads (grads_and_metrics gm st b).2 (grads_and_metrics gm st b).1.grads
          (grads_and_metrics gm st b).1.funcState).map
        fun st2 => (st2, (grads_and_metrics gm st b).1.metrics,
          if rt then some (grads_and_metrics gm st b).1.tdError else none) := by
  have hn := anyNaN_eq_false_of_allFinite _ h
  simp [update, hn]

/-- Witness for C2 at a concrete finite-gradient batch. -/
theorem update_split_equiv_witness :
    update cGmFin cState () false =
      (update_from_grads (grads_and_metrics cGmFin cState ()).2
          (grads_and_metrics cGmFin cState ()).1.grads
          (grads_and_metrics cGmFin cState ()).1.funcState).map
        fun st2 => (st2, (grads_and_metrics cGmFin cState ()).1.metrics,
          if false then some (grads_and_metrics cGmFin cState ()).1.tdError else none) :=
  update_split_equiv cGmFin cState () false rfl

/-- Claim C3 (confirmed): in the scalar case the per-sample TD-error is
the negative gradient of the configured loss in the prediction, scaled by
the batch size; for the mean-squared-error loss with unit importance
weights it equals target minus prediction exactly, and over the reals the
packaged mse gradient is the true derivative of the mse loss in each
prediction coordinate. -/
theorem td_error_mse_closed_form {n : ℕ} (G0 V VTarg W : Fin n → ℚ) (hW : W = fun _ => 1) :
    (∀ (L : DiffLoss ℚ n) (regEval : Option (Fin n → ℚ)),
      (scalarLossFunc L G0 V VTarg W regEval).tdError
        = fun i => -(n : ℚ) * L.dPred (scalarLossFunc L G0 V VTarg W regEval).target V none i)
    ∧ (scalarLossFunc (mseLoss ℚ n) G0 V VTarg W none).tdError = (fun i => G0 i - V i)
    ∧ ∀ (yT yP : Fin n → ℝ) (i : Fin n),
        HasDerivAt (fun x => mse yT (Function.update yP i x) none)
          (mseGrad yT yP none i) (yP i) := by
  refine ⟨fun L regEval => rfl, ?_, fun yT yP i => mse_hasDerivAt yT yP i⟩
  funext i
  have hn : (n : ℚ) ≠ 0 := Nat.cast_ne_zero.mpr (Fin.pos i).ne'
  simp [scalarLossFunc, mseLoss, mseGrad]
  field_simp

/-- Witness for C3 at a concrete one-sample batch. -/
theorem td_error_mse_closed_form_witness :
    (scalarLossFunc (mseLoss ℚ 1) (fun _ => 7) (fun _ => 4) (fun _ => 0) (fun _ => 1)
        none).tdError
      = (fun i => (fun _ => (7 : ℚ)) i - (fun _ => (4 : ℚ)) i) :=
  (td_error_mse_closed_form (fun _ => 7) (fun _ => 4) (fun _ => 0) (fun _ => 1) rfl).2.1

/-- Claim C4 (confirmed): the loss computation sees the importance weights
only after clipping them to the interval from one tenth to ten, so two
weight vectors that agree after clipping (in particular, that are equal or
exceed the same bound samplewise) give identical clipped weights, an
identical scalar-branch output, and identical gradients of the loss seen
as a function of the online parameters, for any gradient operator. -/
theorem clipped_weight_invariance {α : Type} [LinearOrderedField α] {n : ℕ} (L : DiffLoss α n)
    (G0 V VTarg : Fin n → α) (regEval : Option (Fin n → α)) (W1 W2 : Fin n → α)
    (h : ∀ i, W1 i = W2 i ∨ (10 < W1 i ∧ 10 < W2 i) ∨ (W1 i < 1 / 10 ∧ W2 i < 1 / 10)) :
    clipWeights W1 = clipWeights W2
    ∧ scalarLossFunc L G0 V VTarg W1 regEval = scalarLossFunc L G0 V VTarg W2 regEval
    ∧ ∀ (P Gr : Type) (Dgrad : (P → α) → Gr) (net : P → Fin n → α),
        Dgrad (scalarLossOfParams L net G0 VTarg W1 regEval)
          = Dgrad (scalarLossOfParams L net G0 VTarg W2 regEval) := by
  have hclip : clipWeights W1 = clipWeights W2 := by
    funext i
    rcases h i with he | ⟨h1, h2⟩ | ⟨h1, h2⟩
    · simp [clipWeights, he]
    · show clipS (W1 i) (1 / 10) 10 = clipS (W2 i) (1 / 10) 10
      rw [clipS_high _ _ _ (le_of_lt h1), clipS_high _ _ _ (le_of_lt h2)]
    · show clipS (W1 i) (1 / 10) 10 = clipS (W2 i) (1 / 10) 10
      have hlh : (1 : α) / 10 ≤ 10 := by norm_num
      rw [clipS_low _ _ _ (le_of_lt h1) hlh, clipS_low _ _ _ (le_of_lt h2) hlh]
  refine ⟨hclip, ?_, ?_⟩
  · unfold scalarLossFunc
    rw [hclip]
  · intro P Gr Dgrad net
    have hfun : scalarLossOfParams L net G0 VTarg W1 regEval
        = scalarLossOfParams L net G0 VTarg W2 regEval := by
      funext p
      unfold scalarLossOfParams scalarLossFunc
      rw [hclip]
    rw [hfun]

/-- Witness for C4: two weight vectors both above the upper bound give the
same scalar-branch output. -/
theorem clipped_weight_invariance_witness :
    scalarLossFunc (mseLoss ℚ 1) (fun _ => 1) (fun _ => 0) (fun _ => 0) (fun _ => 20) none
      = scalarLossFunc (mseLoss ℚ 1) (fun _ => 1) (fun _ => 0) (fun _ => 0) (fun _ => 50)
          none :=
  (clipped_weight_invariance (mseLoss ℚ 1) (fun _ => 1) (fun _ => 0) (fun _ => 0) none
    (fun _ => 20) (fun _ => 50) (by decide)).2.1

/-- Claim C5 (confirmed): with a configured regularizer the scalar branch
adds the negated batch_eval value to the bootstrapped target before the
loss, and the distributional branch applies it as an affine shift with
scale one to the target distribution before the mean cross-entropy loss;
with no regularizer the target is unchanged in both branches. -/
theorem regularizer_target_shift {α : Type} [LinearOrderedField α] {n : ℕ} {D : Type}
    (L : DiffLoss α n) (crossEntropy : D → D → Fin n → α)
    (affineTransform : D → (Fin n → α) → (Fin n → α) → D)
    (distTarget distPred : D) (G0 V VTarg W : Fin n → α) (r : Fin n → α) :
    (scalarLossFunc L G0 V VTarg W (some r)).target = (fun i => G0 i - r i)
    ∧ (scalarLossFunc L G0 V VTarg W (some r)).loss
        = L.val (fun i => G0 i - r i) V (some (clipWeights W))
    ∧ (scalarLossFunc L G0 V VTarg W none).target = G0
    ∧ distLossFunc crossEntropy affineTransform distTarget distPred (some r)
        = (vmean (crossEntropy (affineTransform distTarget (fun _ => 1) (fun i => -(r i)))
              distPred),
           affineTransform distTarget (fun _ => 1) (fun i => -(r i)))
    ∧ distLossFunc crossEntropy affineTransform distTarget distPred none
        = (vmean (crossEntropy distTarget distPred), distTarget) := by
  have hshift : (fun i => G0 i + -(r i)) = fun i => G0 i - r i := by
    funext i
    ring
  refine ⟨?_, ?_, ?_, rfl, rfl⟩
  · show (fun i => G0 i + -(r i)) = fun i => G0 i - r i
    exact hshift
  · show L.val (fun i => G0 i + -(r i)) V (some (clipWeights W))
        = L.val (fun i => G0 i - r i) V (some (clipWeights W))
    rw [hshift]
  · funext i
    simp [scalarLossFunc]

/-- Claim C6, amended: the target parameter bundle always contains a
regularizer entry; when no policy regularizer is configured the entries
under the reg and reg_hparams keys hold the Python None value, while the
online and target network params are present under their own keys. -/
theorem target_params_reg_null (q qT v vT : Func) :
    List.lookup "reg" (targetParamsQ q qT none) = some none
    ∧ List.lookup "reg_hparams" (targetParamsQ q qT none) = some none
    ∧ List.lookup "q" (targetParamsQ q qT none) = some (some q.params)
    ∧ List.lookup "q_targ" (targetParamsQ q qT none) = some (some qT.params)
    ∧ List.lookup "reg" (targetParamsV v vT none) = some none
    ∧ List.lookup "reg_hparams" (targetParamsV v vT none) = some none :=
  ⟨rfl, rfl, rfl, rfl, rfl, rfl⟩

/-- Counterexample to C6 as stated: for a concrete updater constructed
without a regularizer, the bundle does contain an entry keyed reg. -/
theorem target_params_reg_counterexample :
    ("reg" ∈ (targetParamsQ cQFunc cQFunc none).map Prod.fst)
    ∧ ("reg" ∈ (targetParamsV cVFunc cVFunc none).map Prod.fst) := by
  constructor <;> decide

/-- Claim C7 (confirmed): the loss computation proceeds past its assertion
prelude exactly when target, prediction, target estimate and weights all
share one shape and all have rank one; any mismatch aborts it with an
assertion error (the final TD-error shape assertion then never fires,
since the TD-error inherits the prediction shape). -/
theorem shape_assertions_gate (dPred : List ℚ → List ℚ → List ℚ) (G V VTarg W : NDArr) :
    isOkE (lossFuncAsserts dPred G V VTarg W)
      = (equalShapes [G, V, VTarg, W] && allRankOne [G, V, VTarg, W]) := by
  cases hs : equalShapes [G, V, VTarg, W]
  · simp [lossFuncAsserts, hs, isOkE]
  · cases hr : allRankOne [G, V, VTarg, W]
    · simp [lossFuncAsserts, hs, hr, isOkE]
    · have hshapes : V.shape = G.shape ∧ VTarg.shape = G.shape ∧ W.shape = G.shape := by
        have hs2 := hs
        simp [equalShapes, List.all] at hs2
        exact hs2
      simp [lossFuncAsserts, hs, hr, isOkE, hshapes.1, hshapes.2.2]

/-- Claim C8 (confirmed): each constructor succeeds exactly when the type
checks pass: the base constructor rejects a policy_regularizer that is
neither None nor a Regularizer; the V constructor additionally requires v
and any non-None v_targ to be v-functions; the Q constructor requires q
to be a q-function and q_targ to be None, a list, a tuple or a
q-function; the target-policy constructor additionally requires a
non-None pi_targ to be a policy. -/
theorem construction_type_checks :
    (∀ (τ Λ : Type) (f : Func) (fT : Option τ) (ls : Func → τ) (o : Option Optimizer)
        (dO : Optimizer) (lf : Option Λ) (dL : Λ) (preg : RegArg),
        isOkE (BaseTDLearning.init f fT ls o dO lf dL preg) = !preg.isBad)
    ∧ (∀ (Λ : Type) (v : Func) (vT : Option Func) (o : Option Optimizer) (dO : Optimizer)
        (lf : Option Λ) (dL : Λ) (preg : RegArg),
        isOkE (BaseTDLearningV.init v vT o dO lf dL preg)
          = (is_vfunction v && vTargOk vT && !preg.isBad))
    ∧ (∀ (Λ : Type) (q : Func) (qT : QTargArg) (o : Option Optimizer) (dO : Optimizer)
        (lf : Option Λ) (dL : Λ) (preg : RegArg),
        isOkE (BaseTDLearningQ.init q qT o dO lf dL preg)
          = (is_qfunction q && qTargOk qT && !preg.isBad))
    ∧ (∀ (Λ : Type) (q : Func) (piT : Option Func) (qT : QTargArg) (o : Option Optimizer)
        (dO : Optimizer) (lf : Option Λ) (dL : Λ) (preg : RegArg),
        isOkE (BaseTDLearningQWithTargetPolicy.init q piT qT o dO lf dL preg)
          = (piTargOk piT && (is_qfunction q && qTargOk qT && !preg.isBad))) := by
  refine ⟨fun τ Λ f fT ls o dO lf dL preg => isOkE_baseInit f fT ls o dO lf dL preg,
    ?_, fun Λ q qT o dO lf dL preg => isOkE_qInit q qT o dO lf dL preg, ?_⟩
  · intro Λ v vT o dO lf dL preg
    cases hv : is_vfunction v
    · simp [BaseTDLearningV.init, hv, isOkE]
    · cases hvt : vTargOk vT
      · simp [BaseTDLearningV.init, hv, hvt, isOkE]
      · simp only [BaseTDLearningV.init, hv, hvt, Bool.not_true, Bool.false_eq_true,
          if_false, Bool.true_and]
        rw [isOkE_baseInit]
  · intro Λ q piT qT o dO lf dL preg
    cases hp : piTargOk piT
    · simp [BaseTDLearningQWithTargetPolicy.init, hp, isOkE]
    · simp only [BaseTDLearningQWithTargetPolicy.init, hp, Bool.not_true, Bool.false_eq_true,
        if_false, Bool.true_and]
      rw [isOkE_map, isOkE_qInit]

/-- Claim C9 (confirmed): assigning the optimizer succeeds and replaces
only the stored optimizer exactly when the structure of the state the new
optimizer builds on the current online params matches the current
optimizer-state structure, and errors otherwise; assigning the optimizer
state succeeds and replaces only the stored state exactly when the tree
structures match, and errors otherwise. -/
theorem optimizer_setter_characterization {τ Λ : Type} (st : BaseTD τ Λ) (o : Optimizer)
    (s : PTree FloatVal) :
    (setOptimizer st o =
      if treeStructure (o.init st.f.params) = treeStructure st.optimizerState then
        .ok { st with optimizer := o }
      else .error "cannot set optimizer attr: mismatch in optimizer_state structure")
    ∧ (setOptimizerState st s =
      if treeStructure s = treeStructure st.optimizerState then
        .ok { st with optimizerState := s }
      else .error "cannot set optimizer_state attr: mismatch in tree structure") := by
  constructor
  · by_cases hx : treeStructure (o.init st.f.params) = treeStructure st.optimizerState
    · simp [setOptimizer, hx]
    · simp [setOptimizer, hx]
  · by_cases hx : treeStructure s = treeStructure st.optimizerState
    · simp [setOptimizerState, hx]
    · simp [setOptimizerState, hx]

/-- Claim C10 (confirmed): the Q constructor accepts a list or a tuple for
q_targ without inspecting it, accepts a single object exactly when it is a
q-function, and on q_targ None stores the online q-function itself as the
target. -/
theorem q_targ_acceptance :
    (∀ (Λ : Type) (q : Func) (fs : List Func) (o : Option Optimizer) (dO : Optimizer)
        (lf : Option Λ) (dL : Λ) (preg : RegArg),
        isOkE (BaseTDLearningQ.init q (QTargArg.qlist fs) o dO lf dL preg)
            = (is_qfunction q && !preg.isBad)
          ∧ isOkE (BaseTDLearningQ.init q (QTargArg.qtuple fs) o dO lf dL preg)
            = (is_qfunction q && !preg.isBad))
    ∧ (∀ (Λ : Type) (q g : Func) (o : Option Optimizer) (dO : Optimizer)
        (lf : Option Λ) (dL : Λ) (preg : RegArg),
        isOkE (BaseTDLearningQ.init q (QTargArg.qsingle g) o dO lf dL preg)
          = (is_qfunction q && is_qfunction g && !preg.isBad))
    ∧ (∀ (Λ : Type) (q : Func) (o : Option Optimizer) (dO : Optimizer)
        (lf : Option Λ) (dL : Λ) (preg : RegArg),
        is_qfunction q = true → preg.isBad = false →
        (BaseTDLearningQ.init q QTargArg.qnone o dO lf dL preg).map (fun s => s.fTarg)
          = .ok (Sum.inl q)) := by
  refine ⟨?_, ?_, ?_⟩
  · intro Λ q fs o dO lf dL preg
    constructor <;> (rw [isOkE_qInit]; simp [qTargOk])
  · intro Λ q g o dO lf dL preg
    rw [isOkE_qInit]
    simp [qTargOk]
  · intro Λ q o dO lf dL preg hq hpreg
    cases preg
    case rbad => simp [RegArg.isBad] at hpreg
    all_goals
      simp [BaseTDLearningQ.init, hq, qTargOk, BaseTDLearning.init, RegArg.isBad,
        QTargArg.resolve, Except.map]

/-- Witness for C10: a concrete Q constructor call with q_targ None stores
the online q-function as its own target. -/
theorem q_targ_acceptance_witness :
    (BaseTDLearningQ.init cQFunc QTargArg.qnone none cOpt (none : Option Unit) () RegArg.rnone).map
        (fun s => s.fTarg)
      = .ok (Sum.inl cQFunc) :=
  q_targ_acceptance.2.2 Unit cQFunc none cOpt none () RegArg.rnone rfl rfl

end Coax
